import Mathlib

/-!
Verification development for the batched Snake environment in
`src/game_env_parallel.py`.  The Python module simulates `n_games`
independent Snake boards ("lanes") as numpy arrays.  The definitions below
are a shallow embedding of that module: numpy arrays of per-lane grids are
modelled as functions `Nat → Nat → Nat → Nat` (game, row, column), the
frame deque is a `List` of grids (leftmost element is index 0), and the
dynamically typed values that the Python code collapses between arrays and
scalars are modelled with explicit sum types.  Statements that the Python
runtime would abort with an exception are modelled with `Except String`.
-/

namespace SnakeGame

/-- Cell values, from `self._value` in `Snake.__init__`
    (`{'snake':1, 'board':0, 'food':3, 'head':2, 'border':4}`). -/
def vSnake : Nat := 1

/-- Empty-cell value (`self._value['board']`). -/
def vBoard : Nat := 0

/-- Food cell value (`self._value['food']`). -/
def vFood : Nat := 3

/-- Head cell value (`self._value['head']`). -/
def vHead : Nat := 2

/-- Border cell value (`self._value['border']`). -/
def vBorder : Nat := 4

/-- Reward for dying (`self._rewards['out']`), hard coded in `__init__`. -/
def rewardOut : Int := -1

/-- Reward for food (`self._rewards['food']`). -/
def rewardFood : Int := 1

/-- Living reward (`self._rewards['time']`). -/
def rewardTime : Int := 0

/-- No-food-at-timeout penalty (`self._rewards['no_food']`), hard coded 0. -/
def rewardNoFood : Int := 0

/-- A batch of per-lane grids: arguments are game index, row, column.
    Mirrors a numpy array of shape `(n_games, board_size, board_size)`. -/
abbrev Grid := Nat → Nat → Nat → Nat

/-- The all-zero grid (used as an out-of-range default). -/
def zeroGrid : Grid := fun _ _ _ => 0

/-- Constructor arguments of `Snake.__init__`. -/
structure SnakeConfig where
  board_size : Nat
  n_frames : Nat
  n_games : Nat
  start_length : Nat
  max_time_limit : Int

/-- Clamped start length: `self._start_length = min(start_length, (board_size-2)//2)`. -/
def startLength (cfg : SnakeConfig) : Nat :=
  min cfg.start_length ((cfg.board_size - 2) / 2)

/-- The mutable attributes that `Snake.reset` initializes.  The Python
    object also uses `self._snake` (a deque of body positions) and
    `self._snake_head` inside `_move_snake`/`_get_snake_tail`, but no method
    of the module ever assigns those attributes, so they are not part of the
    state; reading them raises `AttributeError` (see `step` below). -/
structure SnakeState where
  body : Grid
  food : Grid
  head : Grid
  snake_length : Nat
  count_food : Nat
  snake_direction : Nat → Nat
  boardq : List Grid
  time : Nat → Int

/-- The fixed border frame built in `__init__`: an `(S-2)×(S-2)` block of
    `board` values padded by one ring of `border` values. -/
def borderGrid (S : Nat) : Nat → Nat → Nat := fun r c =>
  if 1 ≤ r ∧ r ≤ S - 2 ∧ 1 ≤ c ∧ c ≤ S - 2 then vBoard else vBorder

/-- Embedding of `Snake._calculate_board`:
    `board = border + (body>0)*snake + head*head_val + food*food_val`. -/
def calculate_board (cfg : SnakeConfig) (st : SnakeState) : Grid := fun g r c =>
  borderGrid cfg.board_size r c
    + (if 0 < st.body g r c then 1 else 0) * vSnake
    + st.head g r c * vHead
    + st.food g r c * vFood

/-- Frame 0 of the deque (`self._board[0]`); the deque is never empty when
    the code reads it, the default is only there to make the model total. -/
def frame0 (st : SnakeState) : Grid := st.boardq.headD zeroGrid

/-- A `deque(maxlen=maxlen)` append: add on the right, evict from the left
    once the length would exceed `maxlen`. -/
def dequeAppend (maxlen : Nat) (q : List Grid) (x : Grid) : List Grid :=
  (q ++ [x]).drop (q.length + 1 - maxlen)

/-- A `deque(maxlen=maxlen)` appendleft: add on the left, evict from the
    right once the length would exceed `maxlen`. -/
def dequeAppendLeft (maxlen : Nat) (q : List Grid) (x : Grid) : List Grid :=
  (x :: q).take maxlen

/-- Embedding of `Snake._set_first_frame`: `self._board[0] = self._calculate_board()`. -/
def set_first_frame (cfg : SnakeConfig) (st : SnakeState) : SnakeState :=
  { st with boardq := st.boardq.set 0 (calculate_board cfg st) }

/-- Flat cell index of `(g, r, c)` under `seq.reshape(n_games, S, S)`. -/
def flatIdx (S g r c : Nat) : Nat := g * (S * S) + r * S + c

/-- All `(row, col)` pairs of one lane's board. -/
def cellPairs (S : Nat) : Finset (Nat × Nat) := Finset.range S ×ˢ Finset.range S

/-- The grid `food_pos = (board == self._value['board']) * seq.reshape(...)` in
    `Snake._get_food`: the shuffled label at every currently empty cell. -/
def food_pos (cfg : SnakeConfig) (seq : Nat → Nat) (st : SnakeState) : Grid :=
  fun g r c =>
    if frame0 st g r c = vBoard then seq (flatIdx cfg.board_size g r c) else 0

/-- The value `m = food_pos.max((1,2))` in `Snake._get_food`: per-lane maximum label. -/
def lane_max (cfg : SnakeConfig) (seq : Nat → Nat) (st : SnakeState) (g : Nat) : Nat :=
  (cellPairs cfg.board_size).sup fun p => food_pos cfg seq st g p.1 p.2

/-- The value `m = self._food.max((1,2))` in `Snake._get_food`: 1 when the lane
    already has a food cell, else 0 (food grids are 0/1 valued). -/
def food_max (cfg : SnakeConfig) (st : SnakeState) (g : Nat) : Nat :=
  (cellPairs cfg.board_size).sup fun p => st.food g p.1 p.2

/-- The mask `food_pos = ((food_pos == m) & (food_pos > self._value['board']))`:
    the candidate food cell mask. -/
def food_sel (cfg : SnakeConfig) (seq : Nat → Nat) (st : SnakeState) : Grid :=
  fun g r c =>
    if food_pos cfg seq st g r c = lane_max cfg seq st g
        ∧ vBoard < food_pos cfg seq st g r c then 1 else 0

/-- Embedding of `Snake._get_food`: `self._food = food_pos * (1-m) + self._food * m`
    followed by `self._set_first_frame()`.  `seq` stands for the value of
    `np.random.shuffle(np.arange(n_games * board_size**2))`. -/
def get_food (cfg : SnakeConfig) (seq : Nat → Nat) (st : SnakeState) : SnakeState :=
  let newfood : Grid := fun g r c =>
    food_sel cfg seq st g r c * (1 - food_max cfg st g)
      + st.food g r c * food_max cfg st g
  set_first_frame cfg { st with food := newfood }

/-- The per-lane fields `Snake.reset` initializes before it fills the frame
    deque: body values `arange(L-1,0,-1)` on row `S//2`, columns `1..L-1`,
    head at column `L`, direction 0 everywhere, clock 0. -/
def reset_init (cfg : SnakeConfig) : SnakeState :=
  let S := cfg.board_size
  let L := startLength cfg
  { body := fun _ r c => if r = S / 2 ∧ 1 ≤ c ∧ c < L then L - c else 0,
    food := zeroGrid,
    head := fun _ r c => if r = S / 2 ∧ c = L then 1 else 0,
    snake_length := L, count_food := 0, snake_direction := fun _ => 0,
    boardq := [], time := fun _ => 0 }

/-- The state built by `Snake.reset` just before it calls `_get_food`: the
    frame deque receives `n_frames` appends of the same freshly calculated
    board. -/
def reset_pre (cfg : SnakeConfig) : SnakeState :=
  let b := calculate_board cfg (reset_init cfg)
  { reset_init cfg with
    boardq :=
      (List.range cfg.n_frames).foldl (fun q _ => dequeAppend cfg.n_frames q b) [] }

/-- Embedding of `Snake.reset`: initialize every lane and place the food. -/
def reset (cfg : SnakeConfig) (seq : Nat → Nat) : SnakeState :=
  get_food cfg seq (reset_pre cfg)

/-- Embedding of `Snake._get_new_direction`:
    `f = (np.abs(action - current_direction) != 2) & (action != -1)`,
    `new_dir[f] = action[f]` (stored into a `uint8` array, hence mod 256). -/
def get_new_direction (action : Nat → Int) (current_direction : Nat → Nat) :
    Nat → Nat := fun g =>
  if (action g - (current_direction g : Int)).natAbs ≠ 2 ∧ action g ≠ -1 then
    (action g % 256).toNat
  else current_direction g

/-- The `(3,3,4)` movement convolution kernel `self._action_conv`:
    ones at `(1,0,0)`, `(2,1,1)`, `(1,2,2)`, `(0,1,3)`. -/
def action_conv (u v a : Nat) : Nat :=
  if u = 1 ∧ v = 0 ∧ a = 0 then 1
  else if u = 2 ∧ v = 1 ∧ a = 1 then 1
  else if u = 1 ∧ v = 2 ∧ a = 2 then 1
  else if u = 0 ∧ v = 1 ∧ a = 3 then 1
  else 0

/-- Embedding of `Snake._get_new_head`: resolve the direction, take all 3×3 windows of
    the head grid (the strided view covers output positions
    `0..S-3`), contract with the kernel, select the lane's one-hot resolved
    direction, and pad the result back to `S×S` with zeros. -/
def get_new_head (S : Nat) (action : Nat → Int)
    (current_direction : Nat → Nat) (head : Grid) : Grid :=
  let nd := get_new_direction action current_direction
  fun g r c =>
    if 1 ≤ r ∧ r ≤ S - 2 ∧ 1 ≤ c ∧ c ≤ S - 2 then
      (Finset.range 4).sum fun a =>
        ((Finset.range 3).sum fun u =>
          (Finset.range 3).sum fun v =>
            head g (r - 1 + u) (c - 1 + v) * action_conv u v a)
        * (if a = nd g then 1 else 0)
    else 0

/-- A dynamically typed numpy value as it flows through `_check_if_done`
    and `step`: either a python/numpy scalar or a per-lane `(n_games, 1)`
    array.  The Python code initializes these as arrays and then overwrites
    some of them with scalars inside terminal branches. -/
inductive PyVal where
  | scalar : Int → PyVal
  | arr : (Nat → Int) → PyVal

/-- The `termination_reason` value: initialized as a per-lane list of
    strings and overwritten with a single string in terminal branches. -/
inductive PyStr where
  | scalar : String → PyStr
  | arr : (Nat → String) → PyStr

/-- The tuple returned by `Snake._check_if_done`. -/
structure CheckResult where
  reward : PyVal
  done : PyVal
  can_eat_food : PyVal
  termination_reason : PyStr

/-- The count `(self._board[0] == v).sum()` of cells of value `v` over the
    WHOLE batch, every lane together, as in `_check_if_done`. -/
def countCells (cfg : SnakeConfig) (st : SnakeState) (v : Nat) : Nat :=
  (Finset.range cfg.n_games).sum fun g =>
    (cellPairs cfg.board_size).sum fun p =>
      if frame0 st g p.1 p.2 = v then 1 else 0

/-- Embedding of `Snake._check_if_done`.  After initializing the per-lane arrays it calls
    `_get_new_head` (whose fancy one-hot indexing raises `IndexError` when a
    resolved direction is outside `0..3`) and enters the `while(1)` block:
    * the board-full test `(board==0).sum()==0 and (board==3).sum()==0`
      aggregates over the whole batch and, when it fires, assigns the
      scalar `done = 1`, `reward += food_reward` and the single string
      `termination_reason = 'game_end'` for every lane at once;
    * every later branch reads `new_head.row` / `new_head.col`, but
      `_get_new_head` returns a numpy array, which has no such attributes,
      so the interpreter raises `AttributeError` before any of the wall,
      self-collision, food or time-limit checks can run. -/
def check_if_done (cfg : SnakeConfig) (st : SnakeState) (action : Nat → Int) :
    Except String CheckResult :=
  let nd := get_new_direction action st.snake_direction
  if ∃ g ∈ Finset.range cfg.n_games, 4 ≤ nd g then
    Except.error "IndexError: one-hot action index out of bounds"
  else if countCells cfg st vBoard = 0 ∧ countCells cfg st vFood = 0 then
    Except.ok
      { reward := PyVal.arr fun _ => rewardTime + rewardFood,
        done := PyVal.scalar 1,
        can_eat_food := PyVal.arr fun _ => 0,
        termination_reason := PyStr.scalar "game_end" }
  else
    Except.error "AttributeError: numpy.ndarray object has no attribute row"

/-- The tuple returned by `Snake.step`, plus the mutated object state. -/
structure StepResult where
  observation : List (List (List (List Nat)))
  reward : PyVal
  done : PyVal
  info_time : Nat → Int
  info_food : Nat
  info_reason : PyStr
  state : SnakeState

/-- Embedding of `Snake._queue_to_board`: stack the frame deque along a new last axis,
    giving shape `(n_games, board_size, board_size, n_frames)`. -/
def queue_to_board (cfg : SnakeConfig) (st : SnakeState) :
    List (List (List (List Nat))) :=
  (List.range cfg.n_games).map fun g =>
    (List.range cfg.board_size).map fun r =>
      (List.range cfg.board_size).map fun c =>
        st.boardq.map fun b => b g r c

/-- Truth test `if(done == 0)` on a numpy value: defined for scalars and
    for size-1 arrays; ambiguous (a `ValueError`) for larger arrays. -/
def pyEqZero (n_games : Nat) : PyVal → Except String Bool
  | PyVal.scalar x => Except.ok (x == 0)
  | PyVal.arr f =>
    if n_games = 1 then Except.ok (f 0 == 0)
    else Except.error "ValueError: truth value of an array with more than one element is ambiguous"

/-- Embedding of `Snake.step`: run `_check_if_done`; when `done == 0` the code calls
    `_move_snake`, whose line `new_board[self._snake_head.row, ...]` reads
    the attribute `_snake_head` that no method of the module ever assigns,
    raising `AttributeError`; otherwise it increments `self._time` for every
    lane and returns `(observation, reward, done, info)`. -/
def step (cfg : SnakeConfig) (st : SnakeState) (action : Nat → Int) :
    Except String StepResult :=
  match check_if_done cfg st action with
  | Except.error e => Except.error e
  | Except.ok res =>
    match pyEqZero cfg.n_games res.done with
    | Except.error e => Except.error e
    | Except.ok true =>
        Except.error "AttributeError: Snake object has no attribute snake_head"
    | Except.ok false =>
        let st1 : SnakeState := { st with time := fun g => st.time g + 1 }
        Except.ok
          { observation := queue_to_board cfg st1, reward := res.reward,
            done := res.done, info_time := st1.time,
            info_food := st1.count_food, info_reason := res.termination_reason,
            state := st1 }

/-! ### Projection helpers used to state properties of `Except` results -/

/-- Whether a python call aborted with an exception. -/
def isErr {α : Type} : Except String α → Bool
  | Except.error _ => true
  | Except.ok _ => false

/-- Read a `PyVal` at lane `g` (a scalar broadcasts to every lane). -/
def pyAt (v : PyVal) (g : Nat) : Int :=
  match v with
  | PyVal.scalar x => x
  | PyVal.arr f => f g

/-- Read a `PyStr` at lane `g` (a scalar broadcasts to every lane). -/
def pyStrAt (v : PyStr) (g : Nat) : String :=
  match v with
  | PyStr.scalar s => s
  | PyStr.arr f => f g

/-- The termination reason `_check_if_done` reports for lane `g`, or `none`
    if the call raised. -/
def reasonAt (e : Except String CheckResult) (g : Nat) : Option String :=
  match e with
  | Except.error _ => none
  | Except.ok r => some (pyStrAt r.termination_reason g)

/-- The termination reason `step` reports for lane `g`, or `none` on an
    exception. -/
def stepReason (e : Except String StepResult) (g : Nat) : Option String :=
  match e with
  | Except.error _ => none
  | Except.ok r => some (pyStrAt r.info_reason g)

/-- The reward `step` reports for lane `g`, or `none` on an exception. -/
def stepReward (e : Except String StepResult) (g : Nat) : Option Int :=
  match e with
  | Except.error _ => none
  | Except.ok r => some (pyAt r.reward g)

/-- The `done` flag `step` reports for lane `g`, or `none` on an exception. -/
def stepDone (e : Except String StepResult) (g : Nat) : Option Int :=
  match e with
  | Except.error _ => none
  | Except.ok r => some (pyAt r.done g)

/-- The object state after a `step` call; if the call raised, the partial
    mutations are irrelevant for our statements and we return the input. -/
def stepState (e : Except String StepResult) (dflt : SnakeState) : SnakeState :=
  match e with
  | Except.error _ => dflt
  | Except.ok r => r.state

/-- The frame deque after a `step` call (input deque if the call raised). -/
def postQueue (cfg : SnakeConfig) (st : SnakeState) (action : Nat → Int) :
    List Grid :=
  (stepState (step cfg st action) st).boardq

/-- Value of frame `i` of a deque at `(g, r, c)`. -/
def frameVal (q : List Grid) (i g r c : Nat) : Nat :=
  (q.getD i zeroGrid) g r c

/-! ### Concrete instances used by the claim theorems -/

/-- The scenario configuration of the spec: board 6, 1 lane, start length 2
    (frame depth 2, default time limit). -/
def cfg6 : SnakeConfig :=
  { board_size := 6, n_frames := 2, n_games := 1, start_length := 2,
    max_time_limit := 298 }

/-- Identity value of `np.arange(n)` left unshuffled. -/
def seqId : Nat → Nat := fun n => n

/-- All-lanes action `Right` (code 0). -/
def act0 : Nat → Int := fun _ => 0

/-- All-lanes action `-1` ("no direction change"). -/
def actNeg : Nat → Int := fun _ => -1

/-- All-lanes action `Up` (code 1). -/
def act1 : Nat → Int := fun _ => 1

/-- Number of cells of one lane whose board value is Empty. -/
def laneEmptyCount (cfg : SnakeConfig) (st : SnakeState) (g : Nat) : Nat :=
  ((cellPairs cfg.board_size).filter fun p => frame0 st g p.1 p.2 = vBoard).card

/-- Number of cells of one lane whose food grid is set. -/
def laneFoodCount (cfg : SnakeConfig) (st : SnakeState) (g : Nat) : Nat :=
  ((cellPairs cfg.board_size).filter fun p => st.food g p.1 p.2 ≠ 0).card

/-- Number of food-marked cells of a lane that were NOT empty beforehand
    (relative to the pre-call board `st`). -/
def laneFoodOnNonEmpty (cfg : SnakeConfig) (st after : SnakeState) (g : Nat) : Nat :=
  ((cellPairs cfg.board_size).filter fun p =>
    after.food g p.1 p.2 ≠ 0 ∧ frame0 st g p.1 p.2 ≠ vBoard).card

/-- Number of positions at which the state of lane `g` differs between two
    batch states (body, head, food, first frame, direction, clock). -/
def laneMismatch (cfg : SnakeConfig) (s t : SnakeState) (g : Nat) : Nat :=
  ((cellPairs cfg.board_size).sum fun p =>
    (if s.body g p.1 p.2 = t.body g p.1 p.2 then 0 else 1) +
    (if s.head g p.1 p.2 = t.head g p.1 p.2 then 0 else 1) +
    (if s.food g p.1 p.2 = t.food g p.1 p.2 then 0 else 1) +
    (if frame0 s g p.1 p.2 = frame0 t g p.1 p.2 then 0 else 1)) +
  (if s.snake_direction g = t.snake_direction g then 0 else 1) +
  (if s.time g = t.time g then 0 else 1)

/-- Two-lane configuration on a 4×4 board (interior 2×2). -/
def cfg4 : SnakeConfig :=
  { board_size := 4, n_frames := 2, n_games := 2, start_length := 3,
    max_time_limit := -1 }

/-- A snake filling the whole 2×2 interior except the head cell: body
    (tail first) `(1,1) (1,2) (2,2)`, head `(2,1)`. -/
def bodyFull : Grid := fun _ r c =>
  if r = 1 ∧ c = 1 then 3
  else if r = 1 ∧ c = 2 then 2
  else if r = 2 ∧ c = 2 then 1
  else 0

/-- Head of the board-filling snake. -/
def headFull : Grid := fun _ r c => if r = 2 ∧ c = 1 then 1 else 0

/-- Batch of two lanes whose boards are both completely full (no Empty, no
    Food cell anywhere): the snake occupies the whole interior. -/
def stFullFull : SnakeState :=
  let st0 : SnakeState :=
    { body := bodyFull, food := zeroGrid, head := headFull, snake_length := 4,
      count_food := 0, snake_direction := fun _ => 2, boardq := [],
      time := fun _ => 0 }
  let b := calculate_board cfg4 st0
  { st0 with boardq := [b, b] }

/-- Same batch, except lane 1 is missing the body cell `(1,1)`, so lane 1
    has one Empty cell while lane 0 is identical to `stFullFull`'s lane 0. -/
def stFullPart : SnakeState :=
  let body : Grid := fun g r c =>
    if 1 ≤ g ∧ r = 1 ∧ c = 1 then 0 else bodyFull g r c
  let st0 : SnakeState :=
    { body := body, food := zeroGrid, head := headFull, snake_length := 4,
      count_food := 0, snake_direction := fun _ => 2, boardq := [],
      time := fun _ => 0 }
  let b := calculate_board cfg4 st0
  { st0 with boardq := [b, b] }

/-- One-lane configuration on a 4×4 board, frame depth 2, no time limit. -/
def cfg41 : SnakeConfig :=
  { board_size := 4, n_frames := 2, n_games := 1, start_length := 3,
    max_time_limit := -1 }

/-- One lane whose board is full; the older frame of its history is the
    bare border frame, so the two frames are distinguishable. -/
def stFull1 : SnakeState :=
  let st0 : SnakeState :=
    { body := bodyFull, food := zeroGrid, head := headFull, snake_length := 4,
      count_food := 0, snake_direction := fun _ => 2, boardq := [],
      time := fun _ => 0 }
  let b := calculate_board cfg41 st0
  { st0 with boardq := [b, fun _ r c => borderGrid 4 r c] }

/-- The state after stepping `stFull1` once (terminal `game_end` outcome). -/
def stFull1a : SnakeState := stepState (step cfg41 stFull1 actNeg) stFull1

/-- The state after stepping `stFull1` twice. -/
def stFull1b : SnakeState := stepState (step cfg41 stFull1a actNeg) stFull1a

/-- One-lane configuration on a 6×6 board, no time limit. -/
def cfgL : SnakeConfig :=
  { board_size := 6, n_frames := 2, n_games := 1, start_length := 4,
    max_time_limit := -1 }

/-- A bent snake about to follow its own tail: body (tail first)
    `(2,2) (2,3) (3,3)`, head `(3,2)`, moving Left; the cell above the head
    is the tail cell `(2,2)`, so action Up targets exactly the tail. -/
def stLoop : SnakeState :=
  let body : Grid := fun _ r c =>
    if r = 2 ∧ c = 2 then 3
    else if r = 2 ∧ c = 3 then 2
    else if r = 3 ∧ c = 3 then 1
    else 0
  let head : Grid := fun _ r c => if r = 3 ∧ c = 2 then 1 else 0
  let food : Grid := fun _ r c => if r = 1 ∧ c = 1 then 1 else 0
  let st0 : SnakeState :=
    { body := body, food := food, head := head, snake_length := 4,
      count_food := 0, snake_direction := fun _ => 2, boardq := [],
      time := fun _ => 0 }
  let b := calculate_board cfgL st0
  { st0 with boardq := [b, b] }

/-- One-lane configuration on a 6×6 board with `max_time_limit = 1`. -/
def cfg61 : SnakeConfig :=
  { board_size := 6, n_frames := 2, n_games := 1, start_length := 2,
    max_time_limit := 1 }

/-- The freshly reset `cfg61` lane with its clock already at the time
    limit: elapsed time 1 ≥ `max_time_limit` = 1. -/
def stTimeUp : SnakeState := { reset cfg61 seqId with time := fun _ => 1 }

/-- One-lane, one-frame configuration on a 4×4 board. -/
def cfg4e : SnakeConfig :=
  { board_size := 4, n_frames := 1, n_games := 1, start_length := 2,
    max_time_limit := -1 }

/-- A lane with exactly one Empty cell `(2,1)` and no food: body
    `(1,1) (1,2)`, head `(2,2)`. -/
def stOneEmpty : SnakeState :=
  let body : Grid := fun _ r c =>
    if r = 1 ∧ c = 1 then 2 else if r = 1 ∧ c = 2 then 1 else 0
  let head : Grid := fun _ r c => if r = 2 ∧ c = 2 then 1 else 0
  let st0 : SnakeState :=
    { body := body, food := zeroGrid, head := head, snake_length := 3,
      count_food := 0, snake_direction := fun _ => 0, boardq := [],
      time := fun _ => 0 }
  let b := calculate_board cfg4e st0
  { st0 with boardq := [b] }

/-- A permutation of `0..15` that puts label 0 on the flat index 9, which
    is cell `(2,1)` of lane 0 on a 4×4 board. -/
def seqSwap09 : Nat → Nat := fun n => if n = 9 then 0 else if n = 0 then 9 else n

/-- A lane with two Empty cells `(2,1)` and `(2,2)` and no food: body
    `(1,1)`, head `(1,2)`. -/
def stTwoEmpty : SnakeState :=
  let body : Grid := fun _ r c => if r = 1 ∧ c = 1 then 1 else 0
  let head : Grid := fun _ r c => if r = 1 ∧ c = 2 then 1 else 0
  let st0 : SnakeState :=
    { body := body, food := zeroGrid, head := head, snake_length := 2,
      count_food := 0, snake_direction := fun _ => 0, boardq := [],
      time := fun _ => 0 }
  let b := calculate_board cfg4e st0
  { st0 with boardq := [b] }

/-! ### Claim theorems -/

set_option maxRecDepth 400000

/-- Claim C1 (refuted; evidence for the collapse across lanes): lanes 0 of
    `stFullFull` and `stFullPart` are identical (same body, head, food,
    board frame, direction and clock) and receive the same action, yet
    `_check_if_done` reports `game_end` for lane 0 of the one batch and
    raises for the other, because its board-full test sums Empty/Food cells
    over the whole batch and then assigns batch-wide scalars: lane 0's
    outcome is not a function of lane 0's state and action alone. -/
theorem check_if_done_not_per_lane :
    laneMismatch cfg4 stFullFull stFullPart 0 = 0 ∧
    reasonAt (check_if_done cfg4 stFullFull actNeg) 0 = some "game_end" ∧
    reasonAt (check_if_done cfg4 stFullPart actNeg) 0 = none ∧
    isErr (check_if_done cfg4 stFullPart actNeg) = true := by
  refine ⟨by decide, by decide, by decide, by decide⟩

/-- Claim C2 (code bug): in the spec scenario (board 6, 1 lane, start
    length 2) `reset()` does place the head at `(3,2)`, direction Right,
    with a body cell at `(3,1)` — but the very first `step(Right)` raises
    `AttributeError` (the wall-collision check reads `.row` on the numpy
    candidate-head grid), so the head never moves to column 3, 4 or 5 and
    no `collision_wall` outcome is ever produced. -/
theorem reset_scenario_step_crashes :
    (reset cfg6 seqId).head 0 3 2 = 1 ∧
    (reset cfg6 seqId).snake_direction 0 = 0 ∧
    (reset cfg6 seqId).body 0 3 1 = 1 ∧
    isErr (step cfg6 (reset cfg6 seqId) act0) = true := by
  refine ⟨by decide, by decide, by decide, by decide⟩

/-- Claim C3 (code bug): a lane whose board is full terminates with
    `game_end` (the only terminal branch `step` can actually complete), and
    a subsequent `step()` on the already-terminal lane does return the same
    reward/done/reason — but it mutates the lane's clock again (`_time`
    goes 1 to 2), because `step` increments `_time` unconditionally and the
    object stores no per-lane terminal flag at all. -/
theorem step_on_terminal_lane_mutates_clock :
    stepReason (step cfg41 stFull1 actNeg) 0 = some "game_end" ∧
    stepDone (step cfg41 stFull1 actNeg) 0 = some 1 ∧
    stepReward (step cfg41 stFull1 actNeg) 0 = some 1 ∧
    stFull1a.time 0 = 1 ∧
    stepReason (step cfg41 stFull1a actNeg) 0 = some "game_end" ∧
    stepDone (step cfg41 stFull1a actNeg) 0 = some 1 ∧
    stepReward (step cfg41 stFull1a actNeg) 0 = some 1 ∧
    stFull1b.time 0 = 2 := by
  refine ⟨by decide, by decide, by decide, by decide, by decide, by decide,
    by decide, by decide⟩

/-- Claim C5 (code bug): in `stLoop` the action Up resolves to a candidate
    head equal to the current tail cell `(2,2)` (marked Body on the board),
    exactly the tail-following situation of the claim — but `step()` raises
    `AttributeError` at the wall-collision check before the self-collision
    tail exception is ever evaluated, so the head never comes to occupy the
    tail cell. -/
theorem tail_follow_step_crashes :
    frame0 stLoop 0 2 2 = vSnake ∧
    get_new_head 6 act1 stLoop.snake_direction stLoop.head 0 2 2 = 1 ∧
    isErr (step cfgL stLoop act1) = true := by
  refine ⟨by decide, by decide, by decide⟩

/-- Claim C8 (code bug): `stTimeUp` has a finite time limit 1, elapsed time
    1 ≥ limit, and action Right targets an ordinary Empty cell `(3,3)` (not
    board-full, not wall, not self, not food) — the claim demands a
    `time_up` termination, but `step()` raises `AttributeError` at the
    wall-collision check before the time-limit branch can run. -/
theorem time_up_step_crashes :
    cfg61.max_time_limit = 1 ∧
    stTimeUp.time 0 = 1 ∧
    frame0 stTimeUp 0 3 3 = vBoard ∧
    isErr (step cfg61 stTimeUp act0) = true := by
  refine ⟨by decide, by decide, by decide, by decide⟩

/-- Claim C4 counterexample: the out-of-range action 5 with current
    direction 0 does NOT leave the direction unchanged — `_get_new_direction`
    copies it into the direction array (`|5-0| ≠ 2` and `5 ≠ -1`). -/
theorem get_new_direction_out_of_range_overwrites :
    get_new_direction (fun _ => 5) (fun _ => 0) 0 = 5 ∧
    get_new_direction (fun _ => 5) (fun _ => 0) 0 ≠ 0 := by
  refine ⟨by decide, by decide⟩

/-- Claim C6 counterexample: a committed terminal step (board full,
    `done = 1`) pushes no new grid: the frame history after the step is the
    unchanged input deque — frame 1 is still the old bare-border frame
    (value 0 at `(1,1)`), whereas pushing would have made frame 1 the
    previous frame 0 (value `vSnake` at `(1,1)`). -/
theorem terminal_step_pushes_no_frame :
    stepDone (step cfg41 stFull1 actNeg) 0 = some 1 ∧
    (postQueue cfg41 stFull1 actNeg).length = 2 ∧
    frameVal stFull1.boardq 0 0 1 1 = vSnake ∧
    frameVal (postQueue cfg41 stFull1 actNeg) 1 0 1 1 = 0 := by
  refine ⟨by decide, by decide, by decide, by decide⟩

/-- Claim C7 counterexample: after `reset()` on `cfg6` the two stacked
    frames of the observation at lane 0, cell `(4,4)` are `[3, 0]` — frame
    0 contains the Food cell that `_get_food` wrote via `_set_first_frame`,
    the older frame does not, so the F frames are NOT identical. -/
theorem reset_frames_not_identical :
    (((queue_to_board cfg6 (reset cfg6 seqId)).getD 0 []).getD 4 []).getD 4 []
      = [vFood, vBoard] := by decide

/-- Claim C9 counterexample: lane 0 of `stOneEmpty` has no Food cell and
    one Empty cell `(2,1)`, yet for the shuffle `seqSwap09` (which puts
    label 0 on that cell) `_get_food` marks nothing: the mask demands a
    label strictly greater than 0, so the lane is left without Food. -/
theorem get_food_skips_sole_empty_cell :
    laneFoodCount cfg4e stOneEmpty 0 = 0 ∧
    laneEmptyCount cfg4e stOneEmpty 0 = 1 ∧
    frame0 stOneEmpty 0 2 1 = vBoard ∧
    seqSwap09 (flatIdx 4 0 2 1) = 0 ∧
    laneFoodCount cfg4e (get_food cfg4e seqSwap09 stOneEmpty) 0 = 0 := by
  refine ⟨by decide, by decide, by decide, by decide, by decide⟩

/-- Claim C4 (amended): for every lane, the new direction is unchanged when
    the action is the sentinel `-1` or differs from the current direction by
    exactly 2 (a reversal); and it equals the action whenever the action is
    a valid direction code in `{0,1,2,3}` that is not a reversal.  (Out of
    range codes other than `-1` are NOT left unchanged — see the
    counterexample — they are written into the direction array.) -/
theorem get_new_direction_valid_cases (action : Nat → Int)
    (current_direction : Nat → Nat) (g : Nat) :
    ((action g = -1 ∨ (action g - (current_direction g : Int)).natAbs = 2) →
      get_new_direction action current_direction g = current_direction g) ∧
    (0 ≤ action g → action g < 4 →
      (action g - (current_direction g : Int)).natAbs ≠ 2 →
      get_new_direction action current_direction g = (action g).toNat) := by
  constructor
  · intro h
    unfold get_new_direction
    rcases h with h | h
    · simp [h]
    · simp [h]
  · intro h0 h4 hne
    unfold get_new_direction
    have hm1 : action g ≠ -1 := by omega
    rw [if_pos ⟨hne, hm1⟩]
    rw [Int.emod_eq_of_lt h0 (by omega)]

/-- Witness for C4: action 1 (Up) from direction 0 (Right) is applied. -/
theorem get_new_direction_valid_cases_witness :
    get_new_direction (fun _ => 1) (fun _ => 0) 0 = 1 :=
  (get_new_direction_valid_cases (fun _ => 1) (fun _ => 0) 0).2
    (by decide) (by decide) (by decide)

/-- Claim C10 (confirmed): if lane `g`'s head grid has its single mark at
    an interior cell `(r0, c0)` and the resolved direction points into the
    border ring (Right from the last interior column, Up from the first
    interior row, Left from the first interior column, or Down from the
    last interior row), then `_get_new_head` returns a grid that is zero
    everywhere: the windowed convolution only produces interior positions
    and the surrounding ring is re-padded with the constant 0, so a move
    into the border is never represented as a marked border cell. -/
theorem get_new_head_into_border_all_zero (S : Nat) (action : Nat → Int)
    (current_direction : Nat → Nat) (head : Grid) (g r0 c0 : Nat)
    (hS : 3 ≤ S) (hr0l : 1 ≤ r0) (hr0u : r0 ≤ S - 2) (hc0l : 1 ≤ c0)
    (hc0u : c0 ≤ S - 2)
    (hhead : ∀ r < S, ∀ c < S, head g r c = if r = r0 ∧ c = c0 then 1 else 0)
    (hdir : (get_new_direction action current_direction g = 0 ∧ c0 = S - 2) ∨
            (get_new_direction action current_direction g = 1 ∧ r0 = 1) ∨
            (get_new_direction action current_direction g = 2 ∧ c0 = 1) ∨
            (get_new_direction action current_direction g = 3 ∧ r0 = S - 2)) :
    ∀ r c, get_new_head S action current_direction head g r c = 0 := by
  intro r c
  unfold get_new_head
  by_cases hin : 1 ≤ r ∧ r ≤ S - 2 ∧ 1 ≤ c ∧ c ≤ S - 2
  · rw [if_pos hin]
    obtain ⟨hr1, hr2, hc1, hc2⟩ := hin
    rcases hdir with ⟨hd, he⟩ | ⟨hd, he⟩ | ⟨hd, he⟩ | ⟨hd, he⟩ <;>
      rw [hd] <;>
      simp only [Finset.sum_range_succ, Finset.sum_range_zero, action_conv] <;>
      norm_num
    · rw [hhead (r - 1 + 1) (by omega) (c - 1) (by omega), if_neg (by omega)]
    · rw [hhead (r - 1 + 2) (by omega) (c - 1 + 1) (by omega),
        if_neg (by omega)]
    · rw [hhead (r - 1 + 1) (by omega) (c - 1 + 2) (by omega),
        if_neg (by omega)]
    · rw [hhead (r - 1) (by omega) (c - 1 + 1) (by omega), if_neg (by omega)]
  · rw [if_neg hin]

/-- Witness for C10: board 6, head at `(3,4)` (last interior column),
    direction Right, action `-1`: the candidate-head grid is zero at the
    cell `(3,5)` the head is ostensibly moving to (and everywhere else). -/
theorem get_new_head_into_border_all_zero_witness :
    get_new_head 6 actNeg (fun _ => 0)
      (fun _ r c => if r = 3 ∧ c = 4 then 1 else 0) 0 3 5 = 0 :=
  get_new_head_into_border_all_zero 6 actNeg (fun _ => 0)
    (fun _ r c => if r = 3 ∧ c = 4 then 1 else 0) 0 3 4
    (by decide) (by decide) (by decide) (by decide) (by decide)
    (by decide) (Or.inl (by decide)) 3 5

/-! ### Frame-history lemmas (claims C6, C7) -/

/-- Appending to a full-or-not `deque(maxlen=F)` of identical frames. -/
lemma dequeAppend_replicate (F k : Nat) (b : Grid) :
    dequeAppend F (List.replicate k b) b = List.replicate (min (k + 1) F) b := by
  unfold dequeAppend
  rw [List.length_replicate, ← List.replicate_succ', List.drop_replicate]
  congr 1
  omega

/-- The deque built by `reset` is `n_frames` copies of the initial board. -/
lemma reset_pre_boardq (cfg : SnakeConfig) :
    (reset_pre cfg).boardq =
      List.replicate cfg.n_frames (calculate_board cfg (reset_init cfg)) := by
  have key : ∀ n, (List.range n).foldl
      (fun q _ => dequeAppend cfg.n_frames q (calculate_board cfg (reset_init cfg))) []
      = List.replicate (min n cfg.n_frames) (calculate_board cfg (reset_init cfg)) := by
    intro n
    induction n with
    | zero => simp
    | succ n ih =>
      rw [List.range_succ, List.foldl_append, ih]
      simp only [List.foldl_cons, List.foldl_nil]
      rw [dequeAppend_replicate]
      congr 1
      omega
  calc (reset_pre cfg).boardq
      = (List.range cfg.n_frames).foldl
          (fun q _ => dequeAppend cfg.n_frames q (calculate_board cfg (reset_init cfg))) []
        := rfl
    _ = _ := by rw [key cfg.n_frames, min_self]

/-- The call `_get_food` rewrites frame 0 in place; it never changes the length of
    the frame deque. -/
lemma get_food_boardq_length (cfg : SnakeConfig) (seq : Nat → Nat)
    (st : SnakeState) :
    (get_food cfg seq st).boardq.length = st.boardq.length := by
  unfold get_food set_first_frame
  simp [List.length_set]

/-- After `reset` the frame deque holds exactly `n_frames` frames. -/
lemma reset_boardq_length (cfg : SnakeConfig) (seq : Nat → Nat) :
    (reset cfg seq).boardq.length = cfg.n_frames := by
  unfold reset
  rw [get_food_boardq_length, reset_pre_boardq, List.length_replicate]

/-- No branch of `step` modifies the frame deque: the terminal branch skips
    `_move_snake` (the only place that pushes a frame), and every other
    branch aborts with an exception. -/
lemma postQueue_eq (cfg : SnakeConfig) (st : SnakeState) (action : Nat → Int) :
    postQueue cfg st action = st.boardq := by
  unfold postQueue stepState step
  cases hc : check_if_done cfg st action with
  | error e => simp
  | ok res =>
    cases hz : pyEqZero cfg.n_games res.done with
    | error e => simp [hz]
    | ok b => cases b <;> simp [hz]

/-- Claim C6 (amended): the frame history contains exactly F frames at all
    times — `reset()` leaves exactly `n_frames` frames in the deque, and no
    `step()` call ever changes the deque: a committed terminal step skips
    the push entirely (see the counterexample) and the non-terminal path
    raises before pushing. -/
theorem frame_history_spec (cfg : SnakeConfig) (seq : Nat → Nat)
    (st : SnakeState) (action : Nat → Int) :
    (reset cfg seq).boardq.length = cfg.n_frames ∧
    postQueue cfg st action = st.boardq :=
  ⟨reset_boardq_length cfg seq, postQueue_eq cfg st action⟩

/-- The full deque produced by `reset`: frame 0 is the board recalculated
    after food placement, the remaining `n_frames - 1` frames are the
    pre-food initial board. -/
lemma reset_boardq_eq (cfg : SnakeConfig) (seq : Nat → Nat)
    (hF : 1 ≤ cfg.n_frames) :
    (reset cfg seq).boardq =
      calculate_board cfg (reset cfg seq) ::
        List.replicate (cfg.n_frames - 1) (calculate_board cfg (reset_init cfg)) := by
  have h1 : (reset cfg seq).boardq
      = (reset_pre cfg).boardq.set 0 (calculate_board cfg (reset cfg seq)) := rfl
  rw [h1, reset_pre_boardq]
  obtain ⟨F1, hF1⟩ : ∃ k, cfg.n_frames = k + 1 := ⟨cfg.n_frames - 1, by omega⟩
  rw [hF1, List.replicate_succ, List.set_cons_zero]
  norm_num

/-- Reading `getD` through a `map` over `List.range` at a valid index. -/
lemma getD_map_range {α : Type} (f : Nat → α) (n k : Nat) (d : α)
    (hk : k < n) :
    ((List.range n).map f).getD k d = f k := by
  rw [List.getD_eq_getElem _ _ (by simpa using hk), List.getElem_map,
    List.getElem_range]

/-- Claim C7 (amended): `reset()` returns an observation tensor of shape
    `(n_games, board_size, board_size, n_frames)`, but its F stacked frames
    are NOT all identical: frames `1..F-1` are copies of the pre-food
    initial grid, while frame 0 is the recalculated board that additionally
    contains the Food cell (see the counterexample for an explicit
    difference). -/
theorem reset_observation_spec (cfg : SnakeConfig) (seq : Nat → Nat)
    (g r c i : Nat) (hg : g < cfg.n_games) (hr : r < cfg.board_size)
    (hc : c < cfg.board_size) (hF : 1 ≤ cfg.n_frames) (hi1 : 1 ≤ i)
    (hiF : i < cfg.n_frames) :
    (queue_to_board cfg (reset cfg seq)).length = cfg.n_games ∧
    ((queue_to_board cfg (reset cfg seq)).getD g []).length = cfg.board_size ∧
    (((queue_to_board cfg (reset cfg seq)).getD g []).getD r []).length
      = cfg.board_size ∧
    ((((queue_to_board cfg (reset cfg seq)).getD g []).getD r []).getD c []).length
      = cfg.n_frames ∧
    frameVal (reset cfg seq).boardq i g r c
      = calculate_board cfg (reset_init cfg) g r c ∧
    frameVal (reset cfg seq).boardq 0 g r c
      = calculate_board cfg (reset cfg seq) g r c := by
  refine ⟨?_, ?_, ?_, ?_, ?_, ?_⟩
  · unfold queue_to_board
    rw [List.length_map, List.length_range]
  · unfold queue_to_board
    rw [getD_map_range _ _ _ _ hg, List.length_map, List.length_range]
  · unfold queue_to_board
    rw [getD_map_range _ _ _ _ hg, getD_map_range _ _ _ _ hr,
      List.length_map, List.length_range]
  · unfold queue_to_board
    rw [getD_map_range _ _ _ _ hg, getD_map_range _ _ _ _ hr,
      getD_map_range _ _ _ _ hc, List.length_map]
    exact reset_boardq_length cfg seq
  · unfold frameVal
    rw [reset_boardq_eq cfg seq hF]
    obtain ⟨j, rfl⟩ : ∃ j, i = j + 1 := ⟨i - 1, by omega⟩
    rw [List.getD_cons_succ,
      List.getD_eq_getElem _ _ (by rw [List.length_replicate]; omega),
      List.getElem_replicate]
  · unfold frameVal
    rw [reset_boardq_eq cfg seq hF, List.getD_cons_zero]

/-- Witness for C7: the shape and frame facts at the concrete scenario
    configuration, lane 0, cell `(2,2)`, frame 1. -/
theorem reset_observation_spec_witness :
    (queue_to_board cfg6 (reset cfg6 seqId)).length = 1 ∧
    ((queue_to_board cfg6 (reset cfg6 seqId)).getD 0 []).length = 6 ∧
    (((queue_to_board cfg6 (reset cfg6 seqId)).getD 0 []).getD 2 []).length = 6 ∧
    ((((queue_to_board cfg6 (reset cfg6 seqId)).getD 0 []).getD 2 []).getD 2 []).length
      = 2 ∧
    frameVal (reset cfg6 seqId).boardq 1 0 2 2
      = calculate_board cfg6 (reset_init cfg6) 0 2 2 ∧
    frameVal (reset cfg6 seqId).boardq 0 0 2 2
      = calculate_board cfg6 (reset cfg6 seqId) 0 2 2 :=
  reset_observation_spec cfg6 seqId 0 2 2 1 (by decide) (by decide)
    (by decide) (by decide) (by decide) (by decide)

/-! ### Food placement lemmas (claim C9) -/

/-- Total number of cells in the batch: `n_games * board_size**2`, the
    length of the shuffled `np.arange` in `_get_food`. -/
def batchCells (cfg : SnakeConfig) : Nat :=
  cfg.n_games * (cfg.board_size * cfg.board_size)

/-- Reading a permutation of `Fin M` as the shuffled label array. -/
def seqOf (M : Nat) (σ : Equiv.Perm (Fin M)) : Nat → Nat := fun n =>
  if h : n < M then (σ ⟨n, h⟩ : Fin M).val else 0

/-- Transposition of two naturals. -/
def natSwap (i j : Nat) : Nat → Nat := fun n =>
  if n = i then j else if n = j then i else n

lemma natSwap_involutive (i j n : Nat) : natSwap i j (natSwap i j n) = n := by
  unfold natSwap
  by_cases h1 : n = i
  · by_cases h2 : j = i <;> simp [h1, h2]
  · by_cases h2 : n = j
    · simp [h1, h2]
    · simp [h1, h2]

lemma flatIdx_lt (S g r c N : Nat) (hg : g < N) (hr : r < S) (hc : c < S) :
    flatIdx S g r c < N * (S * S) := by
  unfold flatIdx
  have h1 : r * S + c < S * S := by
    calc r * S + c < r * S + S := by omega
      _ = (r + 1) * S := by ring
      _ ≤ S * S := Nat.mul_le_mul_right S hr
  calc g * (S * S) + r * S + c < g * (S * S) + S * S := by omega
    _ = (g + 1) * (S * S) := by ring
    _ ≤ N * (S * S) := Nat.mul_le_mul_right (S * S) hg

lemma flatIdx_inj (S g r1 c1 r2 c2 : Nat) (hr1 : r1 < S) (hc1 : c1 < S)
    (hr2 : r2 < S) (hc2 : c2 < S)
    (h : flatIdx S g r1 c1 = flatIdx S g r2 c2) : r1 = r2 ∧ c1 = c2 := by
  unfold flatIdx at h
  have hS : 0 < S := by omega
  have h2 : r1 * S + c1 = r2 * S + c2 := by omega
  have hd : (r1 * S + c1) / S = (r2 * S + c2) / S := by rw [h2]
  rw [Nat.mul_comm r1 S, Nat.mul_comm r2 S, Nat.mul_add_div hS,
    Nat.mul_add_div hS, Nat.div_eq_of_lt hc1, Nat.div_eq_of_lt hc2] at hd
  constructor
  · omega
  · have : r1 = r2 := by omega
    subst this
    omega

lemma seqOf_lt (M : Nat) (σ : Equiv.Perm (Fin M)) (n : Nat) (h : n < M) :
    seqOf M σ n = (σ ⟨n, h⟩ : Fin M).val := by
  unfold seqOf
  rw [dif_pos h]

lemma seqOf_ge (M : Nat) (σ : Equiv.Perm (Fin M)) (n : Nat) (h : ¬ n < M) :
    seqOf M σ n = 0 := by
  unfold seqOf
  rw [dif_neg h]

/-- Composing a permutation with a transposition of two in-range indices
    relabels exactly those two flat indices. -/
lemma seqOf_trans_swap (M : Nat) (σ : Equiv.Perm (Fin M)) (i1 i2 : Fin M)
    (n : Nat) :
    seqOf M ((Equiv.swap i1 i2).trans σ) n
      = seqOf M σ (natSwap i1.val i2.val n) := by
  by_cases h : n < M
  · by_cases h1 : (⟨n, h⟩ : Fin M) = i1
    · have hn : n = i1.val := by rw [← h1]
      have hswap : natSwap i1.val i2.val n = i2.val := by
        unfold natSwap
        rw [if_pos hn]
      rw [hswap, seqOf_lt M _ n h, seqOf_lt M σ i2.val i2.isLt,
        Equiv.trans_apply, h1, Equiv.swap_apply_left, Fin.eta]
    · by_cases h2 : (⟨n, h⟩ : Fin M) = i2
      · have hn : n = i2.val := by rw [← h2]
        have hn1 : n ≠ i1.val := by
          intro he
          exact h1 (Fin.ext he)
        have hswap : natSwap i1.val i2.val n = i1.val := by
          unfold natSwap
          rw [if_neg hn1, if_pos hn]
        rw [hswap, seqOf_lt M _ n h, seqOf_lt M σ i1.val i1.isLt,
          Equiv.trans_apply, h2, Equiv.swap_apply_right, Fin.eta]
      · have hn1 : n ≠ i1.val := by
          intro he
          exact h1 (Fin.ext he)
        have hn2 : n ≠ i2.val := by
          intro he
          exact h2 (Fin.ext he)
        have hswap : natSwap i1.val i2.val n = n := by
          unfold natSwap
          rw [if_neg hn1, if_neg hn2]
        rw [hswap, seqOf_lt M _ n h, seqOf_lt M σ n h, Equiv.trans_apply,
          Equiv.swap_apply_of_ne_of_ne h1 h2]
  · have h1 : n ≠ i1.val := fun he => h (he ▸ i1.isLt)
    have h2 : n ≠ i2.val := fun he => h (he ▸ i2.isLt)
    have hswap : natSwap i1.val i2.val n = n := by
      unfold natSwap
      rw [if_neg h1, if_neg h2]
    rw [hswap, seqOf_ge M _ n h, seqOf_ge M σ n h]

/-- When the lane has no food, `food_pos * (1-m) + food * m` reduces to the
    selection mask. -/
lemma get_food_food_of_no_food (cfg : SnakeConfig) (seq : Nat → Nat)
    (st : SnakeState) (g : Nat) (hnf : food_max cfg st g = 0) (r c : Nat) :
    (get_food cfg seq st).food g r c = food_sel cfg seq st g r c := by
  unfold get_food set_first_frame
  simp [hnf]

/-- When the lane already has food (`m = 1`) the food grid is unchanged. -/
lemma get_food_keeps_food (cfg : SnakeConfig) (seq : Nat → Nat)
    (st : SnakeState) (g : Nat) (hf : food_max cfg st g = 1) (r c : Nat) :
    (get_food cfg seq st).food g r c = st.food g r c := by
  unfold get_food set_first_frame
  simp [hf]

lemma food_pos_of_empty (cfg : SnakeConfig) (seq : Nat → Nat)
    (st : SnakeState) (g r c : Nat) (he : frame0 st g r c = vBoard) :
    food_pos cfg seq st g r c = seq (flatIdx cfg.board_size g r c) := by
  unfold food_pos
  rw [if_pos he]

lemma food_pos_of_not_empty (cfg : SnakeConfig) (seq : Nat → Nat)
    (st : SnakeState) (g r c : Nat) (he : frame0 st g r c ≠ vBoard) :
    food_pos cfg seq st g r c = 0 := by
  unfold food_pos
  rw [if_neg he]

/-- Membership in `cellPairs`. -/
lemma mem_cellPairs (S : Nat) (p : Nat × Nat) :
    p ∈ cellPairs S ↔ p.1 < S ∧ p.2 < S := by
  unfold cellPairs
  rw [Finset.mem_product, Finset.mem_range, Finset.mem_range]

/-- If every relabeled label of an empty cell of lane `g` occurs as the old
    label of some empty cell of lane `g`, the per-lane maximum cannot
    increase. -/
lemma lane_max_le_of_relabel (cfg : SnakeConfig) (st : SnakeState) (g : Nat)
    (seq seq' : Nat → Nat)
    (h : ∀ r c, r < cfg.board_size → c < cfg.board_size →
      frame0 st g r c = vBoard →
      ∃ r' c', r' < cfg.board_size ∧ c' < cfg.board_size ∧
        frame0 st g r' c' = vBoard ∧
        seq' (flatIdx cfg.board_size g r c) = seq (flatIdx cfg.board_size g r' c')) :
    lane_max cfg seq' st g ≤ lane_max cfg seq st g := by
  unfold lane_max
  apply Finset.sup_le
  intro p hp
  obtain ⟨hp1, hp2⟩ := (mem_cellPairs cfg.board_size p).mp hp
  by_cases he : frame0 st g p.1 p.2 = vBoard
  · rw [food_pos_of_empty cfg seq' st g p.1 p.2 he]
    obtain ⟨r', c', hr', hc', he', heq⟩ := h p.1 p.2 hp1 hp2 he
    rw [heq, ← food_pos_of_empty cfg seq st g r' c' he']
    exact @Finset.le_sup Nat (Nat × Nat) _ _ (cellPairs cfg.board_size)
      (fun q => food_pos cfg seq st g q.1 q.2) (r', c')
      ((mem_cellPairs cfg.board_size (r', c')).mpr ⟨hr', hc'⟩)
  · rw [food_pos_of_not_empty cfg seq' st g p.1 p.2 he]
    exact Nat.zero_le _

/-- Relabeling by a transposition of the flat indices of two empty cells of
    lane `g` does not change the lane's maximum label. -/
lemma lane_max_natSwap (cfg : SnakeConfig) (st : SnakeState) (g : Nat)
    (seq : Nat → Nat) (r1 c1 r2 c2 : Nat)
    (hr1 : r1 < cfg.board_size) (hc1 : c1 < cfg.board_size)
    (hr2 : r2 < cfg.board_size) (hc2 : c2 < cfg.board_size)
    (he1 : frame0 st g r1 c1 = vBoard) (he2 : frame0 st g r2 c2 = vBoard) :
    lane_max cfg
        (fun n => seq (natSwap (flatIdx cfg.board_size g r1 c1)
          (flatIdx cfg.board_size g r2 c2) n)) st g
      = lane_max cfg seq st g := by
  set i1 := flatIdx cfg.board_size g r1 c1 with hi1
  set i2 := flatIdx cfg.board_size g r2 c2 with hi2
  have key : ∀ r c, r < cfg.board_size → c < cfg.board_size →
      frame0 st g r c = vBoard →
      ∃ r' c', r' < cfg.board_size ∧ c' < cfg.board_size ∧
        frame0 st g r' c' = vBoard ∧
        seq (natSwap i1 i2 (flatIdx cfg.board_size g r c))
          = seq (flatIdx cfg.board_size g r' c') := by
    intro r c hr hc he
    by_cases hq1 : flatIdx cfg.board_size g r c = i1
    · refine ⟨r2, c2, hr2, hc2, he2, ?_⟩
      rw [hq1]
      unfold natSwap
      rw [if_pos rfl, hi2]
    · by_cases hq2 : flatIdx cfg.board_size g r c = i2
      · refine ⟨r1, c1, hr1, hc1, he1, ?_⟩
        rw [hq2]
        unfold natSwap
        by_cases h12 : i2 = i1
        · rw [if_pos h12, h12, hi1]
        · rw [if_neg h12, if_pos rfl, hi1]
      · refine ⟨r, c, hr, hc, he, ?_⟩
        unfold natSwap
        rw [if_neg hq1, if_neg hq2]
  apply le_antisymm
  · exact lane_max_le_of_relabel cfg st g seq _ key
  · have key2 : ∀ r c, r < cfg.board_size → c < cfg.board_size →
        frame0 st g r c = vBoard →
        ∃ r' c', r' < cfg.board_size ∧ c' < cfg.board_size ∧
          frame0 st g r' c' = vBoard ∧
          seq (flatIdx cfg.board_size g r c)
            = seq (natSwap i1 i2 (flatIdx cfg.board_size g r' c')) := by
      intro r c hr hc he
      by_cases hq1 : flatIdx cfg.board_size g r c = i1
      · refine ⟨r2, c2, hr2, hc2, he2, ?_⟩
        rw [hq1, ← hi2]
        unfold natSwap
        by_cases h12 : i2 = i1
        · rw [if_pos h12, h12]
        · rw [if_neg h12, if_pos rfl]
      · by_cases hq2 : flatIdx cfg.board_size g r c = i2
        · refine ⟨r1, c1, hr1, hc1, he1, ?_⟩
          rw [hq2, ← hi1]
          unfold natSwap
          rw [if_pos rfl]
        · refine ⟨r, c, hr, hc, he, ?_⟩
          unfold natSwap
          rw [if_neg hq1, if_neg hq2]
    exact lane_max_le_of_relabel cfg st g _ seq key2

lemma vBoard_eq : vBoard = 0 := rfl

lemma natSwap_comm (i j n : Nat) : natSwap i j n = natSwap j i n := by
  unfold natSwap
  by_cases h1 : n = i
  · by_cases h2 : n = j
    · rw [if_pos h1, if_pos h2, ← h1, ← h2]
    · rw [if_pos h1, if_neg h2, if_pos h1]
  · by_cases h2 : n = j
    · rw [if_neg h1, if_pos h2, if_pos h2]
    · rw [if_neg h1, if_neg h2, if_neg h2, if_neg h1]

lemma food_pos_le_lane_max (cfg : SnakeConfig) (seq : Nat → Nat)
    (st : SnakeState) (g : Nat) (p : Nat × Nat)
    (hp : p ∈ cellPairs cfg.board_size) :
    food_pos cfg seq st g p.1 p.2 ≤ lane_max cfg seq st g :=
  @Finset.le_sup Nat (Nat × Nat) _ _ (cellPairs cfg.board_size)
    (fun q => food_pos cfg seq st g q.1 q.2) p hp

/-- Relabeling by a transposition of the flat indices of two empty cells
    moves the selection mask from the first cell to the second. -/
lemma food_sel_natSwap (cfg : SnakeConfig) (st : SnakeState) (g : Nat)
    (seq : Nat → Nat) (r1 c1 r2 c2 : Nat)
    (hr1 : r1 < cfg.board_size) (hc1 : c1 < cfg.board_size)
    (hr2 : r2 < cfg.board_size) (hc2 : c2 < cfg.board_size)
    (he1 : frame0 st g r1 c1 = vBoard) (he2 : frame0 st g r2 c2 = vBoard) :
    food_sel cfg
        (fun n => seq (natSwap (flatIdx cfg.board_size g r1 c1)
          (flatIdx cfg.board_size g r2 c2) n)) st g r2 c2
      = food_sel cfg seq st g r1 c1 := by
  have hp : food_pos cfg
      (fun n => seq (natSwap (flatIdx cfg.board_size g r1 c1)
        (flatIdx cfg.board_size g r2 c2) n)) st g r2 c2
      = food_pos cfg seq st g r1 c1 := by
    rw [food_pos_of_empty _ _ _ _ _ _ he2, food_pos_of_empty _ _ _ _ _ _ he1]
    unfold natSwap
    by_cases h12 : flatIdx cfg.board_size g r2 c2 = flatIdx cfg.board_size g r1 c1
    · rw [if_pos h12, h12]
    · rw [if_neg h12, if_pos rfl]
  unfold food_sel
  rw [hp, lane_max_natSwap cfg st g seq r1 c1 r2 c2 hr1 hc1 hr2 hc2 he1 he2]

/-- Under a no-food lane, `_get_food` selects exactly the empty cell whose
    shuffled label is the lane maximum, provided that maximum is positive:
    it marks exactly one cell. -/
lemma get_food_places_one (cfg : SnakeConfig) (st : SnakeState)
    (seq : Nat → Nat) (g r1 c1 : Nat) (hg : g < cfg.n_games)
    (hr1 : r1 < cfg.board_size) (hc1 : c1 < cfg.board_size)
    (hinj : ∀ i < batchCells cfg, ∀ j < batchCells cfg, seq i = seq j → i = j)
    (hnf : food_max cfg st g = 0) (he1 : frame0 st g r1 c1 = vBoard)
    (hbig : 2 ≤ laneEmptyCount cfg st g ∨
      seq (flatIdx cfg.board_size g r1 c1) ≠ 0) :
    laneFoodCount cfg (get_food cfg seq st) g = 1 := by
  have hmpos : 0 < lane_max cfg seq st g := by
    rcases hbig with hb | hb
    · unfold laneEmptyCount at hb
      have hb1 : 1 < ((cellPairs cfg.board_size).filter
          fun p => frame0 st g p.1 p.2 = vBoard).card := by omega
      obtain ⟨p, hp, q, hq, hpq⟩ := Finset.one_lt_card.mp hb1
      obtain ⟨hpin, hpe⟩ := Finset.mem_filter.mp hp
      obtain ⟨hqin, hqe⟩ := Finset.mem_filter.mp hq
      obtain ⟨hp1, hp2⟩ := (mem_cellPairs _ p).mp hpin
      obtain ⟨hq1, hq2⟩ := (mem_cellPairs _ q).mp hqin
      by_contra hze
      have hz : lane_max cfg seq st g = 0 := by omega
      have e1 : seq (flatIdx cfg.board_size g p.1 p.2) = 0 := by
        have h := food_pos_le_lane_max cfg seq st g p hpin
        rw [food_pos_of_empty _ _ _ _ _ _ hpe] at h
        omega
      have e2 : seq (flatIdx cfg.board_size g q.1 q.2) = 0 := by
        have h := food_pos_le_lane_max cfg seq st g q hqin
        rw [food_pos_of_empty _ _ _ _ _ _ hqe] at h
        omega
      have heqf : flatIdx cfg.board_size g p.1 p.2
          = flatIdx cfg.board_size g q.1 q.2 :=
        hinj _ (flatIdx_lt _ _ _ _ _ hg hp1 hp2)
          _ (flatIdx_lt _ _ _ _ _ hg hq1 hq2) (by rw [e1, e2])
      obtain ⟨hh1, hh2⟩ :=
        flatIdx_inj cfg.board_size g p.1 p.2 q.1 q.2 hp1 hp2 hq1 hq2 heqf
      exact hpq (Prod.ext hh1 hh2)
    · have h := food_pos_le_lane_max cfg seq st g (r1, c1)
        ((mem_cellPairs _ _).mpr ⟨hr1, hc1⟩)
      rw [food_pos_of_empty _ _ _ _ _ _ he1] at h
      omega
  obtain ⟨p0, hp0in, hp0eq⟩ := Finset.exists_mem_eq_sup
    (cellPairs cfg.board_size)
    ⟨(r1, c1), (mem_cellPairs _ _).mpr ⟨hr1, hc1⟩⟩
    (fun q => food_pos cfg seq st g q.1 q.2)
  have hp0eq' : lane_max cfg seq st g = food_pos cfg seq st g p0.1 p0.2 := hp0eq
  obtain ⟨hp01, hp02⟩ := (mem_cellPairs _ p0).mp hp0in
  have hp0pos : 0 < food_pos cfg seq st g p0.1 p0.2 := by
    rw [← hp0eq']
    exact hmpos
  have hp0e : frame0 st g p0.1 p0.2 = vBoard := by
    by_contra hne
    rw [food_pos_of_not_empty _ _ _ _ _ _ hne] at hp0pos
    omega
  have hp0sel : (get_food cfg seq st).food g p0.1 p0.2 = 1 := by
    rw [get_food_food_of_no_food cfg seq st g hnf]
    unfold food_sel
    rw [if_pos ⟨hp0eq'.symm, by rw [vBoard_eq]; exact hp0pos⟩]
  unfold laneFoodCount
  rw [Finset.card_eq_one]
  refine ⟨p0, ?_⟩
  ext q
  simp only [Finset.mem_filter, Finset.mem_singleton]
  constructor
  · rintro ⟨hqin, hqne⟩
    obtain ⟨hq1, hq2⟩ := (mem_cellPairs _ q).mp hqin
    rw [get_food_food_of_no_food cfg seq st g hnf] at hqne
    unfold food_sel at hqne
    by_cases hcond : food_pos cfg seq st g q.1 q.2 = lane_max cfg seq st g ∧
        vBoard < food_pos cfg seq st g q.1 q.2
    · obtain ⟨hqm, hqpos⟩ := hcond
      rw [vBoard_eq] at hqpos
      have hqe : frame0 st g q.1 q.2 = vBoard := by
        by_contra hne
        rw [food_pos_of_not_empty _ _ _ _ _ _ hne] at hqpos
        omega
      have hlab : seq (flatIdx cfg.board_size g q.1 q.2)
          = seq (flatIdx cfg.board_size g p0.1 p0.2) := by
        rw [← food_pos_of_empty cfg seq st g q.1 q.2 hqe,
          ← food_pos_of_empty cfg seq st g p0.1 p0.2 hp0e, hqm, hp0eq']
      have heqf : flatIdx cfg.board_size g q.1 q.2
          = flatIdx cfg.board_size g p0.1 p0.2 :=
        hinj _ (flatIdx_lt _ _ _ _ _ hg hq1 hq2)
          _ (flatIdx_lt _ _ _ _ _ hg hp01 hp02) hlab
      obtain ⟨hh1, hh2⟩ :=
        flatIdx_inj cfg.board_size g q.1 q.2 p0.1 p0.2 hq1 hq2 hp01 hp02 heqf
      exact Prod.ext hh1 hh2
    · rw [if_neg hcond] at hqne
      exact absurd rfl hqne
  · rintro rfl
    refine ⟨hp0in, ?_⟩
    rw [hp0sel]
    omega

/-- Every cell `_get_food` marks was Empty beforehand. -/
lemma get_food_marks_only_empty (cfg : SnakeConfig) (st : SnakeState)
    (seq : Nat → Nat) (g : Nat) (hnf : food_max cfg st g = 0) :
    laneFoodOnNonEmpty cfg st (get_food cfg seq st) g = 0 := by
  unfold laneFoodOnNonEmpty
  rw [Finset.card_eq_zero, Finset.filter_eq_empty_iff]
  rintro p hp ⟨hne, hnotempty⟩
  rw [get_food_food_of_no_food cfg seq st g hnf] at hne
  unfold food_sel at hne
  by_cases hcond : food_pos cfg seq st g p.1 p.2 = lane_max cfg seq st g ∧
      vBoard < food_pos cfg seq st g p.1 p.2
  · obtain ⟨hm, hpos⟩ := hcond
    rw [food_pos_of_not_empty _ _ _ _ _ _ hnotempty, vBoard_eq] at hpos
    omega
  · rw [if_neg hcond] at hne
    exact hne rfl

/-- If the lane has no Empty cell and no Food, `_get_food` leaves it
    without Food. -/
lemma get_food_no_empty (cfg : SnakeConfig) (st : SnakeState)
    (seq : Nat → Nat) (g : Nat) (hnf : food_max cfg st g = 0)
    (hne : laneEmptyCount cfg st g = 0) :
    laneFoodCount cfg (get_food cfg seq st) g = 0 := by
  unfold laneFoodCount
  rw [Finset.card_eq_zero, Finset.filter_eq_empty_iff]
  intro p hp hmark
  rw [get_food_food_of_no_food cfg seq st g hnf] at hmark
  unfold food_sel at hmark
  by_cases hcond : food_pos cfg seq st g p.1 p.2 = lane_max cfg seq st g ∧
      vBoard < food_pos cfg seq st g p.1 p.2
  · obtain ⟨hm, hpos⟩ := hcond
    have hpe : frame0 st g p.1 p.2 = vBoard := by
      by_contra hno
      rw [food_pos_of_not_empty _ _ _ _ _ _ hno, vBoard_eq] at hpos
      omega
    have : 0 < laneEmptyCount cfg st g := by
      unfold laneEmptyCount
      exact Finset.card_pos.mpr ⟨p, Finset.mem_filter.mpr ⟨hp, hpe⟩⟩
    omega
  · rw [if_neg hcond] at hmark
    exact hmark rfl

/-- Uniformity of the food choice: for any two Empty cells of a no-food
    lane, exactly as many label permutations select the one as select the
    other (the transposition of the two flat labels is a bijection between
    the two sets of permutations). -/
lemma get_food_uniform (cfg : SnakeConfig) (st : SnakeState)
    (g r1 c1 r2 c2 : Nat) (hg : g < cfg.n_games)
    (hr1 : r1 < cfg.board_size) (hc1 : c1 < cfg.board_size)
    (hr2 : r2 < cfg.board_size) (hc2 : c2 < cfg.board_size)
    (hnf : food_max cfg st g = 0)
    (he1 : frame0 st g r1 c1 = vBoard) (he2 : frame0 st g r2 c2 = vBoard) :
    (Finset.filter (fun σ : Equiv.Perm (Fin (batchCells cfg)) =>
        (get_food cfg (seqOf (batchCells cfg) σ) st).food g r1 c1 = 1)
      Finset.univ).card
      = (Finset.filter (fun σ : Equiv.Perm (Fin (batchCells cfg)) =>
        (get_food cfg (seqOf (batchCells cfg) σ) st).food g r2 c2 = 1)
      Finset.univ).card := by
  have hi1 : flatIdx cfg.board_size g r1 c1 < batchCells cfg :=
    flatIdx_lt _ _ _ _ _ hg hr1 hc1
  have hi2 : flatIdx cfg.board_size g r2 c2 < batchCells cfg :=
    flatIdx_lt _ _ _ _ _ hg hr2 hc2
  apply Finset.card_nbij'
      (fun σ => (Equiv.swap (⟨_, hi1⟩ : Fin (batchCells cfg)) ⟨_, hi2⟩).trans σ)
      (fun σ => (Equiv.swap (⟨_, hi1⟩ : Fin (batchCells cfg)) ⟨_, hi2⟩).trans σ)
  · intro σ hσ
    rw [Finset.mem_filter] at hσ ⊢
    refine ⟨Finset.mem_univ _, ?_⟩
    have hseq : seqOf (batchCells cfg)
        ((Equiv.swap (⟨_, hi1⟩ : Fin (batchCells cfg)) ⟨_, hi2⟩).trans σ)
        = fun n => seqOf (batchCells cfg) σ
            (natSwap (flatIdx cfg.board_size g r1 c1)
              (flatIdx cfg.board_size g r2 c2) n) :=
      funext (seqOf_trans_swap (batchCells cfg) σ ⟨_, hi1⟩ ⟨_, hi2⟩)
    rw [hseq, get_food_food_of_no_food cfg _ st g hnf,
      food_sel_natSwap cfg st g (seqOf (batchCells cfg) σ) r1 c1 r2 c2
        hr1 hc1 hr2 hc2 he1 he2,
      ← get_food_food_of_no_food cfg _ st g hnf]
    exact hσ.2
  · intro σ hσ
    rw [Finset.mem_filter] at hσ ⊢
    refine ⟨Finset.mem_univ _, ?_⟩
    have hseq : seqOf (batchCells cfg)
        ((Equiv.swap (⟨_, hi1⟩ : Fin (batchCells cfg)) ⟨_, hi2⟩).trans σ)
        = fun n => seqOf (batchCells cfg) σ
            (natSwap (flatIdx cfg.board_size g r2 c2)
              (flatIdx cfg.board_size g r1 c1) n) := by
      refine funext fun n => ?_
      rw [seqOf_trans_swap (batchCells cfg) σ ⟨_, hi1⟩ ⟨_, hi2⟩ n,
        natSwap_comm]
    rw [hseq, get_food_food_of_no_food cfg _ st g hnf,
      food_sel_natSwap cfg st g (seqOf (batchCells cfg) σ) r2 c2 r1 c1
        hr2 hc2 hr1 hc1 he2 he1,
      ← get_food_food_of_no_food cfg _ st g hnf]
    exact hσ.2
  · intro σ hσ
    refine Equiv.ext fun x => ?_
    simp only [Equiv.trans_apply, Equiv.swap_apply_self]
  · intro σ hσ
    refine Equiv.ext fun x => ?_
    simp only [Equiv.trans_apply, Equiv.swap_apply_self]

/-- Claim C9 (amended): for a lane `g` and any injective shuffle `seq`:
    * if the lane has no Food and the Empty cell `(r1,c1)` is not the sole
      Empty cell carrying shuffled label 0, `_get_food` marks exactly one
      cell Food, and every marked cell was Empty (if the sole Empty cell
      drew label 0, no Food is placed — see the counterexample);
    * the choice is uniform over the lane's Empty cells: any two Empty
      cells are selected by equally many label permutations;
    * if the lane already has a Food cell (`food` maximum 1), its food grid
      is left unchanged;
    * if the lane has no Empty cell (and no Food), it is left without Food. -/
theorem get_food_spec (cfg : SnakeConfig) (st : SnakeState) (seq : Nat → Nat)
    (g r1 c1 r2 c2 : Nat) (hg : g < cfg.n_games)
    (hr1 : r1 < cfg.board_size) (hc1 : c1 < cfg.board_size)
    (hr2 : r2 < cfg.board_size) (hc2 : c2 < cfg.board_size)
    (hinj : ∀ i < batchCells cfg, ∀ j < batchCells cfg, seq i = seq j → i = j) :
    (food_max cfg st g = 0 → frame0 st g r1 c1 = vBoard →
      (2 ≤ laneEmptyCount cfg st g ∨
        seq (flatIdx cfg.board_size g r1 c1) ≠ 0) →
      laneFoodCount cfg (get_food cfg seq st) g = 1 ∧
      laneFoodOnNonEmpty cfg st (get_food cfg seq st) g = 0) ∧
    (food_max cfg st g = 0 → frame0 st g r1 c1 = vBoard →
      frame0 st g r2 c2 = vBoard →
      (Finset.filter (fun σ : Equiv.Perm (Fin (batchCells cfg)) =>
          (get_food cfg (seqOf (batchCells cfg) σ) st).food g r1 c1 = 1)
        Finset.univ).card
        = (Finset.filter (fun σ : Equiv.Perm (Fin (batchCells cfg)) =>
          (get_food cfg (seqOf (batchCells cfg) σ) st).food g r2 c2 = 1)
        Finset.univ).card) ∧
    (food_max cfg st g = 1 →
      (get_food cfg seq st).food g r1 c1 = st.food g r1 c1) ∧
    (food_max cfg st g = 0 → laneEmptyCount cfg st g = 0 →
      laneFoodCount cfg (get_food cfg seq st) g = 0) := by
  refine ⟨?_, ?_, ?_, ?_⟩
  · intro hnf he1 hbig
    exact ⟨get_food_places_one cfg st seq g r1 c1 hg hr1 hc1 hinj hnf he1 hbig,
      get_food_marks_only_empty cfg st seq g hnf⟩
  · intro hnf he1 he2
    exact get_food_uniform cfg st g r1 c1 r2 c2 hg hr1 hc1 hr2 hc2 hnf he1 he2
  · intro hf
    exact get_food_keeps_food cfg seq st g hf r1 c1
  · intro hnf hne
    exact get_food_no_empty cfg st seq g hnf hne

/-- Witness for C9: lane 0 of `stTwoEmpty` (no food, Empty cells `(2,1)`
    and `(2,2)`) with the identity shuffle: exactly one cell gets Food, no
    non-Empty cell is marked, and the two Empty cells are chosen by equally
    many permutations of the 16 labels. -/
theorem get_food_spec_witness :
    laneFoodCount cfg4e (get_food cfg4e seqId stTwoEmpty) 0 = 1 ∧
    laneFoodOnNonEmpty cfg4e stTwoEmpty (get_food cfg4e seqId stTwoEmpty) 0 = 0 ∧
    (Finset.filter (fun σ : Equiv.Perm (Fin (batchCells cfg4e)) =>
        (get_food cfg4e (seqOf (batchCells cfg4e) σ) stTwoEmpty).food 0 2 1 = 1)
      Finset.univ).card
      = (Finset.filter (fun σ : Equiv.Perm (Fin (batchCells cfg4e)) =>
        (get_food cfg4e (seqOf (batchCells cfg4e) σ) stTwoEmpty).food 0 2 2 = 1)
      Finset.univ).card := by
  have h := get_food_spec cfg4e stTwoEmpty seqId 0 2 1 2 2 (by decide)
    (by decide) (by decide) (by decide) (by decide) (by decide)
  obtain ⟨hone, _⟩ := h.1 (by decide) (by decide) (Or.inl (by decide))
  exact ⟨hone, (h.1 (by decide) (by decide) (Or.inl (by decide))).2,
    h.2.1 (by decide) (by decide) (by decide)⟩

end SnakeGame
